import Mathlib

/-!
Verification of the pet water bowl monitoring firmware
(`Water_Monitoring_System_code.ino`).

The firmware is a single-threaded Arduino sketch: a `setup` phase
(SD-card init, log-file creation, RTC init, CSV header) followed by an
unbounded `loop`.  Each `loop` pass reads `millis()`, performs a logging
tick when ten minutes have elapsed since `startMillis`, and otherwise
(or afterwards) performs a reactive indicator check on the pressure and
motion sensors.

We embed the sketch shallowly: the mutable globals become a `MonState`,
one `loop` pass becomes the pure function `loopStep` driven by a
`LoopEnv` record holding the values the hardware returns during that
pass (the successive `millis()` reads, the RTC snapshot, sensor reads).
Unsigned 32-bit timer subtraction is modelled by `usub32`.
-/

/-- Modulus of Arduino `unsigned long` / `uint32_t` arithmetic. -/
def U32 : Nat := 4294967296

/-- Unsigned 32-bit subtraction `a - b` as computed on `uint32_t` values,
mirroring expressions like `currentMillis - startMillis` in the sketch. -/
def usub32 (a b : Nat) : Nat :=
  (a % U32 + (U32 - b % U32)) % U32

/-- Source constant `const unsigned long ten_mins = 600000;` — the
logging period in milliseconds. -/
def ten_mins : Nat := 600000

/-- Source constant `SYNC_INTERVAL` (600000) — milliseconds between
calls to `flush()`. -/
def SYNC_INTERVAL : Nat := 600000

/-- Source constant `const int FSR_empty_bowl = 940;` — FSR value
indicating the bowl needs refilling. -/
def FSR_empty_bowl : Nat := 940

/-- The calendar/epoch snapshot returned by `RTC.now()`. -/
structure DateTimeT where
  year : Nat
  month : Nat
  day : Nat
  hour : Nat
  minute : Nat
  second : Nat
  unixtime : Nat
deriving DecidableEq

/-- A DHT22 float sample as it is rendered by `Print::print(float)`:
a failed read yields NaN, which Arduino `print` renders as the text
`"nan"`; a successful read renders as its decimal text.  We model the
sample by its printed text, keeping NaN as the distinguished sentinel. -/
inductive FloatSample where
  | nan : FloatSample
  | val : String → FloatSample
deriving DecidableEq

/-- The text `Print::print` emits for a `FloatSample`. -/
def FloatSample.render : FloatSample → String
  | .nan => "nan"
  | .val s => s

/-- The human-readable date-time the tick prints between the second and
third `", "` separators: `year/month/day hour:minute:second`, each field
printed with `DEC`. -/
def calendarStr (d : DateTimeT) : String :=
  toString d.year ++ "/" ++ toString d.month ++ "/" ++ toString d.day ++ " " ++
  toString d.hour ++ ":" ++ toString d.minute ++ ":" ++ toString d.second

/-- The single CSV line a logging tick emits via the `logfile.print` /
`logfile.println` sequence: milliseconds since start, unix seconds,
calendar date-time, temperature, humidity, FSR reading, with `", "`
between consecutive fields. -/
def recordLine (m : Nat) (d : DateTimeT) (temp hum : FloatSample) (fsr : Nat) : String :=
  toString m ++ ", " ++ toString d.unixtime ++ ", " ++ calendarStr d ++ ", " ++
  temp.render ++ ", " ++ hum.render ++ ", " ++ toString fsr

/-- The header line `setup` writes once:
`logfile.println("millis,stamp,datetime,temp_(C),humidity%,fsr_reading")`. -/
def headerLine : String := "millis,stamp,datetime,temp_(C),humidity%,fsr_reading"

/-- Join a list of fields with a separator; used to state which
delimiter separates consecutive fields of a produced line. -/
def sepJoin (sep : String) : List String → String
  | [] => ""
  | [x] => x
  | x :: y :: xs => x ++ sep ++ sepJoin sep (y :: xs)

/-- The candidate file name probed at index `i` in `createFile`:
`char filename[] = "MLOG00.CSV"; filename[4] = i/10 + '0';
filename[5] = i%10 + '0';` (48 is the code of `'0'`). -/
def mlogName (i : Nat) : String :=
  String.mk ['M', 'L', 'O', 'G',
             Char.ofNat (i / 10 + 48), Char.ofNat (i % 10 + 48),
             '.', 'C', 'S', 'V']

/-- The probing loop of `createFile`, starting at index `i` with `fuel`
iterations left: `for (uint8_t i = 0; i < 100; i++) { ...; if
(!SD.exists(filename)) { logfile = SD.open(filename, FILE_WRITE);
break; } }`.  `ex` is `SD.exists`; the result is the name opened, or
`none` when the loop exhausts all candidates and `logfile` stays
unready. -/
def createFileFrom (ex : String → Bool) : Nat → Nat → Option String
  | _, 0 => none
  | i, fuel + 1 =>
    if ex (mlogName i) then createFileFrom ex (i + 1) fuel
    else some (mlogName i)

/-- Function `createFile()` from the sketch: probe `MLOG00.CSV` …
`MLOG99.CSV` in ascending order, open the first absent name. -/
def createFile (ex : String → Bool) : Option String :=
  createFileFrom ex 0 100

/-- Function `createFile()` together with the Serial diagnostics it
emits.  The source function contains no `Serial` call at all, so the
diagnostic output is `[]` on every input, including when all 100 names
exist. -/
def createFileDiag (ex : String → Bool) : Option String × List String :=
  (createFile ex, [])

/-- Function `initSDcard()`: the Serial lines it prints.  It always prints
`"Initializing SD card..."`; on `SD.begin` failure it prints
`"Card failed, or not present"` and returns; on success it prints
`"card initialized."`. -/
def initSDcard (beginOk : Bool) : List String :=
  if beginOk then ["Initializing SD card...", "card initialized."]
  else ["Initializing SD card...", "Card failed, or not present"]

/-- Function `initRTC()`: returns the pair (Serial lines, logfile
lines) it emits.  On `RTC.begin` failure the sketch executes
`logfile.println("RTC failed")` — the report goes to the LOG FILE, and
nothing is printed to Serial. -/
def initRTC (rtcOk : Bool) : List String × List String :=
  if rtcOk then ([], []) else ([], ["RTC failed"])

/-- The mutable globals of the sketch that the loop reads and writes:
`startMillis`, `syncTime`, whether `logfile` is an open (ready) handle,
and the lines so far written to the open log file. -/
structure MonState where
  startMillis : Nat
  syncTime : Nat
  ready : Bool
  fileLines : List String
deriving DecidableEq

/-- The values the hardware hands the sketch during one `loop` pass, in
program order: `tNow` is the `millis()` read stored in `currentMillis`;
`tLog` the `millis()` read stored in `m` and logged; `tFlushChk` the
`millis()` read in the flush-cadence test; `tSync` the `millis()` read
assigned to `syncTime` when a flush happens; `now` the `RTC.now()`
snapshot; `fsr1`, `temp`, `hum` the sensor reads inside the tick;
`fsr2`, `motion` the sensor reads of the reactive check. -/
structure LoopEnv where
  tNow : Nat
  tLog : Nat
  tFlushChk : Nat
  tSync : Nat
  now : DateTimeT
  fsr1 : Nat
  temp : FloatSample
  hum : FloatSample
  fsr2 : Nat
  motion : Bool
deriving DecidableEq

/-- The indicator effect invoked in one pass: `alert` models a
`RefillJug()` call (red blink), `presence` a `WhiteLight()` call
(white light held 10 s), `none` no call. -/
inductive Effect where
  | alert : Effect
  | presence : Effect
  | none : Effect
deriving DecidableEq

/-- Observable outcome of one `loop` pass: the new global state,
whether a logging tick ran, whether `logfile.flush()` ran, whether the
reactive indicator check (FSR read, threshold test, motion read) ran,
which effect was invoked, and the record lines appended. -/
structure LoopOut where
  state : MonState
  tick : Bool
  flushed : Bool
  reactive : Bool
  effect : Effect
  appended : List String
deriving DecidableEq

/-- The reactive branch at the tail of `loop`:
`FSRValue = analogRead(FSR_Pin); if (FSRValue <= FSR_empty_bowl)
RefillJug(); else if (digitalRead(MOTION_PIN) == HIGH) WhiteLight();`. -/
def reactiveEffect (fsr2 : Nat) (motion : Bool) : Effect :=
  if fsr2 ≤ FSR_empty_bowl then Effect.alert
  else if motion then Effect.presence
  else Effect.none

/-- A `logfile.print`/`println` sequence producing one line: appended
to the file when the handle is ready, a silent no-op otherwise. -/
def appendLine (s : MonState) (l : String) : MonState :=
  if s.ready then { s with fileLines := s.fileLines ++ [l] } else s

/-- One pass of `loop()`.  If `currentMillis - startMillis >= ten_mins`
(32-bit unsigned arithmetic) the tick prints one record line; then
`if ((millis() - syncTime) < SYNC_INTERVAL) return;` exits the pass
early (no flush, no `startMillis` reset, no reactive check); otherwise
`syncTime = millis(); logfile.flush(); startMillis = currentMillis;
delay(2000);` and the pass falls through to the reactive check.  A pass
with no tick goes straight to the reactive check. -/
def loopStep (s : MonState) (e : LoopEnv) : LoopOut :=
  if ten_mins ≤ usub32 e.tNow s.startMillis then
    let line := recordLine e.tLog e.now e.temp e.hum e.fsr1
    if usub32 e.tFlushChk s.syncTime < SYNC_INTERVAL then
      { state := appendLine s line, tick := true, flushed := false,
        reactive := false, effect := Effect.none, appended := [line] }
    else
      { state := { appendLine s line with syncTime := e.tSync, startMillis := e.tNow },
        tick := true, flushed := true, reactive := true,
        effect := reactiveEffect e.fsr2 e.motion, appended := [line] }
  else
    { state := s, tick := false, flushed := false, reactive := true,
      effect := reactiveEffect e.fsr2 e.motion, appended := [] }

/-- Outcome of `setup()`: Serial output, the log handle chosen by
`createFile`, and the initial global state (`startMillis` and
`syncTime` are zero-initialised globals; the file already holds
whatever `initRTC` printed to it followed by the CSV header, when the
handle is ready). -/
structure SetupOut where
  serial : List String
  handle : Option String
  state : MonState
deriving DecidableEq

/-- Function `setup()`: `initSDcard(); createFile(); initRTC();` then
the header `println`, in that order.  When `SD.begin` failed, `SD.open`
cannot produce a ready handle, so the handle is unready; `logfile`
prints to an unready handle are no-ops. -/
def setup (sdOk rtcOk : Bool) (ex : String → Bool) : SetupOut :=
  let handle := if sdOk then createFile ex else Option.none
  let rtc := initRTC rtcOk
  { serial := initSDcard sdOk ++ rtc.1
    handle := handle
    state := { startMillis := 0, syncTime := 0, ready := handle.isSome,
               fileLines := if handle.isSome then rtc.2 ++ [headerLine] else [] } }

/-- A fixed RTC snapshot used in concrete executions. -/
def dt0 : DateTimeT :=
  { year := 2023, month := 1, day := 1, hour := 0, minute := 0, second := 0,
    unixtime := 725846400 }

/-- A concrete pass environment with the given millis readings; its
pressure reads 1000 (above the threshold) and motion is low. -/
def envAt (t tf ts : Nat) : LoopEnv :=
  { tNow := t, tLog := t, tFlushChk := tf, tSync := ts, now := dt0,
    fsr1 := 1000, temp := FloatSample.val "20.00", hum := FloatSample.val "50.00",
    fsr2 := 1000, motion := false }

/-- A concrete no-tick pass environment with the given reactive sensor
readings. -/
def envReact (fsr2 : Nat) (motion : Bool) : LoopEnv :=
  { tNow := 0, tLog := 0, tFlushChk := 0, tSync := 0, now := dt0,
    fsr1 := 1000, temp := FloatSample.val "20.00", hum := FloatSample.val "50.00",
    fsr2 := fsr2, motion := motion }

/-- A concrete tick environment whose temperature read fails (NaN)
while the humidity read succeeds. -/
def envNanTemp : LoopEnv :=
  { tNow := 600000, tLog := 600000, tFlushChk := 600000, tSync := 600000, now := dt0,
    fsr1 := 800, temp := FloatSample.nan, hum := FloatSample.val "50.00",
    fsr2 := 800, motion := false }

/-- Global state right after a successful `setup` on fresh storage:
`startMillis = 0`, `syncTime = 0`, a ready handle, the header written. -/
def s0 : MonState := (setup true true (fun _ => false)).state

/-- State after a first tick at t = 600000 ms (its flush is taken). -/
def s1 : MonState := (loopStep s0 (envAt 600000 601000 601000)).state

/-- State after a second tick at t = 1200000 ms, where the flush-cadence
test fails (1200400 − 601000 < 600000) and the pass returns early. -/
def s2 : MonState := (loopStep s1 (envAt 1200000 1200400 1200400)).state

/-- With in-range timer values and no wraparound, 32-bit unsigned
subtraction is ordinary subtraction. -/
theorem usub32_eq_sub (a b : Nat) (hb : b ≤ a) (ha : a < U32) : usub32 a b = a - b := by
  simp only [usub32, U32] at ha ⊢
  omega

/-- Appending a line never changes `startMillis`. -/
theorem appendLine_startMillis (s : MonState) (l : String) :
    (appendLine s l).startMillis = s.startMillis := by
  unfold appendLine
  split <;> rfl

/-- Appending a line never changes `syncTime`. -/
theorem appendLine_syncTime (s : MonState) (l : String) :
    (appendLine s l).syncTime = s.syncTime := by
  unfold appendLine
  split <;> rfl

/-- With a ready handle, appending a line extends the file by it. -/
theorem appendLine_fileLines (s : MonState) (l : String) (hs : s.ready = true) :
    (appendLine s l).fileLines = s.fileLines ++ [l] := by
  unfold appendLine
  simp [hs]

/-- With an unready handle, a whole loop pass leaves the file unchanged:
appends degrade to silent no-ops. -/
theorem loopStep_fileLines_not_ready (s : MonState) (e : LoopEnv) (hs : s.ready = false) :
    (loopStep s e).state.fileLines = s.fileLines := by
  unfold loopStep
  split
  · split <;> simp [appendLine, hs]
  · rfl

/-- A pass performs a logging tick exactly when the 32-bit elapsed time
since `startMillis` has reached `ten_mins`. -/
theorem loopStep_tick_iff (s : MonState) (e : LoopEnv) :
    (loopStep s e).tick = true ↔ ten_mins ≤ usub32 e.tNow s.startMillis := by
  unfold loopStep
  split
  · rename_i hA
    split <;> simpa using hA
  · rename_i hA
    simpa using hA

/-- C1 is false as stated.  Concrete reachable trace from the fresh
state: the first tick (t = 600000) flushes and resets `startMillis`;
the second tick (t = 1200000) fails the flush-cadence test, hits the
early `return`, and so does NOT reset `startMillis` to the monotonic
time captured at the start of that tick; consequently the very next
pass (t = 1200401) starts another tick only 401 ms after the previous
one, far less than `ten_mins`. -/
theorem tick_spacing_counterexample :
    (loopStep s1 (envAt 1200000 1200400 1200400)).tick = true
  ∧ (loopStep s1 (envAt 1200000 1200400 1200400)).appended ≠ []
  ∧ s2.startMillis = s1.startMillis
  ∧ s1.startMillis ≠ 1200000
  ∧ (loopStep s2 (envAt 1200401 1200500 1200500)).tick = true
  ∧ 1200401 - 1200000 < ten_mins := by
  decide

/-- C1 (amended): `startMillis` is reset to the tick-start time
`currentMillis` only on ticks that reach the flush branch; after such a
tick the next tick can start no earlier than `ten_mins` later.  A tick
that fails the flush-cadence test returns early WITHOUT resetting
`startMillis`, so consecutive tick starts may then be arbitrarily close
together. -/
theorem tick_reset_flush_path (s : MonState) (e e2 : LoopEnv)
    (h2 : e2.tNow < U32) (hmono : e.tNow ≤ e2.tNow) :
    ((loopStep s e).flushed = true → (loopStep s e).state.startMillis = e.tNow)
  ∧ ((loopStep s e).tick = true → (loopStep s e).flushed = false →
       (loopStep s e).state.startMillis = s.startMillis)
  ∧ ((loopStep s e).flushed = true →
       (loopStep (loopStep s e).state e2).tick = true →
       ten_mins ≤ e2.tNow - e.tNow) := by
  by_cases hA : ten_mins ≤ usub32 e.tNow s.startMillis
  · by_cases hB : usub32 e.tFlushChk s.syncTime < SYNC_INTERVAL
    · refine ⟨?_, ?_, ?_⟩
      · intro hfl
        simp [loopStep, hA, hB] at hfl
      · intro _ _
        simp [loopStep, hA, hB, appendLine_startMillis]
      · intro hfl
        simp [loopStep, hA, hB] at hfl
    · refine ⟨?_, ?_, ?_⟩
      · intro _
        simp [loopStep, hA, hB]
      · intro _ hfl
        simp [loopStep, hA, hB] at hfl
      · intro _ htick2
        have hst : (loopStep s e).state.startMillis = e.tNow := by
          simp [loopStep, hA, hB]
        have hC := (loopStep_tick_iff (loopStep s e).state e2).mp htick2
        rw [hst, usub32_eq_sub e2.tNow e.tNow hmono h2] at hC
        exact hC
  · refine ⟨?_, ?_, ?_⟩
    · intro hfl
      simp [loopStep, hA] at hfl
    · intro htick
      simp [loopStep, hA] at htick
    · intro hfl
      simp [loopStep, hA] at hfl

/-- Witness for the amended C1 theorem at the concrete first tick:
its flush branch is taken and `startMillis` is reset to 600000. -/
theorem tick_reset_flush_path_witness :
    (loopStep s0 (envAt 600000 601000 601000)).state.startMillis = 600000 :=
  (tick_reset_flush_path s0 (envAt 600000 601000 601000)
      (envAt 1200000 1200400 1200400) (by decide) (by decide)).1 (by decide)

/-- C2 is false as stated.  On the concrete first tick from the fresh
state the flush branch is taken, the pass falls through past the
cooldown delay, and the reactive indicator check DOES run in the same
pass as the logging tick. -/
theorem reactive_after_tick_counterexample :
    (loopStep s0 (envAt 600000 601000 601000)).tick = true
  ∧ (loopStep s0 (envAt 600000 601000 601000)).reactive = true := by
  decide

/-- C2 (amended): the reactive check is skipped exactly on the passes
where a logging tick ran but its flush-cadence test failed (the early
`return`); it runs on every other pass — including passes whose tick
flushed, where it runs after the cooldown delay. -/
theorem reactive_runs_iff (s : MonState) (e : LoopEnv) :
    (loopStep s e).reactive = (!(loopStep s e).tick || (loopStep s e).flushed) := by
  unfold loopStep
  split
  · split <;> rfl
  · rfl

/-- C3: `logfile.flush()` runs exactly when a logging tick reaches its
flush-evaluation point with at least `SYNC_INTERVAL` ms elapsed (32-bit)
since `syncTime`; a flush resets `syncTime` to the fresh `millis()` read
taken at that moment, and a pass without a flush leaves `syncTime`
unchanged — so appends alone never trigger a flush. -/
theorem flush_iff_cadence (s : MonState) (e : LoopEnv) :
    ((loopStep s e).flushed = true ↔
      ten_mins ≤ usub32 e.tNow s.startMillis ∧
      SYNC_INTERVAL ≤ usub32 e.tFlushChk s.syncTime)
  ∧ ((loopStep s e).flushed = true → (loopStep s e).state.syncTime = e.tSync)
  ∧ ((loopStep s e).flushed = false → (loopStep s e).state.syncTime = s.syncTime) := by
  by_cases hA : ten_mins ≤ usub32 e.tNow s.startMillis
  · by_cases hB : usub32 e.tFlushChk s.syncTime < SYNC_INTERVAL
    · refine ⟨?_, ?_, ?_⟩
      · simp [loopStep, hA, hB]
      · intro hfl
        simp [loopStep, hA, hB] at hfl
      · intro _
        simp [loopStep, hA, hB, appendLine_syncTime]
    · refine ⟨?_, ?_, ?_⟩
      · simp [loopStep, hA, hB]
        omega
      · intro _
        simp [loopStep, hA, hB]
      · intro hfl
        simp [loopStep, hA, hB] at hfl
  · refine ⟨?_, ?_, ?_⟩
    · simp [loopStep, hA]
    · intro hfl
      simp [loopStep, hA] at hfl
    · intro _
      simp [loopStep, hA]

/-- Witness for the flush-cadence theorem at the concrete first tick:
the flush runs and `syncTime` is reset to the fresh read 601000. -/
theorem flush_iff_cadence_witness :
    (loopStep s0 (envAt 600000 601000 601000)).state.syncTime = 601000 :=
  (flush_iff_cadence s0 (envAt 600000 601000 601000)).2.1 (by decide)

/-- When the reactive check runs, the invoked effect is the one the
reactive branch of `loop` computes from the fresh FSR and motion reads. -/
theorem effect_of_reactive (s : MonState) (e : LoopEnv)
    (hr : (loopStep s e).reactive = true) :
    (loopStep s e).effect = reactiveEffect e.fsr2 e.motion := by
  by_cases hA : ten_mins ≤ usub32 e.tNow s.startMillis
  · by_cases hB : usub32 e.tFlushChk s.syncTime < SYNC_INTERVAL
    · simp [loopStep, hA, hB] at hr
    · simp [loopStep, hA, hB]
  · simp [loopStep, hA]

/-- C4: in any pass whose reactive check runs, pressure at most the
threshold invokes the alert effect (regardless of motion — alert has
priority); pressure above the threshold with motion high invokes the
presence effect; pressure above the threshold with motion low invokes
nothing. -/
theorem reactive_effect_selection (s : MonState) (e : LoopEnv)
    (hr : (loopStep s e).reactive = true) :
    (e.fsr2 ≤ FSR_empty_bowl → (loopStep s e).effect = Effect.alert)
  ∧ (FSR_empty_bowl < e.fsr2 → e.motion = true → (loopStep s e).effect = Effect.presence)
  ∧ (FSR_empty_bowl < e.fsr2 → e.motion = false → (loopStep s e).effect = Effect.none) := by
  have heff := effect_of_reactive s e hr
  refine ⟨?_, ?_, ?_⟩
  · intro h
    rw [heff]
    simp [reactiveEffect, h]
  · intro h hm
    rw [heff]
    simp [reactiveEffect, Nat.not_le.mpr h, hm]
  · intro h hm
    rw [heff]
    simp [reactiveEffect, Nat.not_le.mpr h, hm]

/-- Witness for the effect-selection theorem on a concrete no-tick pass
with pressure 900 (at or below 940) and motion high: alert fires, i.e.
the alert takes priority over presence. -/
theorem reactive_effect_selection_witness :
    (loopStep s0 (envReact 900 true)).effect = Effect.alert :=
  (reactive_effect_selection s0 (envReact 900 true) (by decide)).1 (by decide)

/-- The probing loop starting at `i` returns the first index at or
after `i` whose name is absent, provided it lies within the fuel. -/
theorem createFileFrom_first (ex : String → Bool) (fuel : Nat) :
    ∀ i j : Nat, i ≤ j → j < i + fuel →
    ex (mlogName j) = false →
    (∀ k, i ≤ k → k < j → ex (mlogName k) = true) →
    createFileFrom ex i fuel = some (mlogName j) := by
  induction fuel with
  | zero =>
    intro i j h1 h2 _ _
    omega
  | succ n ih =>
    intro i j h1 h2 hfree hmin
    by_cases hi : ex (mlogName i) = true
    · have hij : i ≠ j := by
        intro h
        rw [h, hfree] at hi
        exact Bool.noConfusion hi
      simp only [createFileFrom, hi, if_true]
      exact ih (i + 1) j (by omega) (by omega) hfree
        (fun k hk1 hk2 => hmin k (by omega) hk2)
    · have hij : i = j := by
        rcases Nat.lt_or_ge i j with h | h
        · exact absurd (hmin i le_rfl h) hi
        · omega
      subst hij
      simp [createFileFrom, hfree]

/-- The probing loop returns `none` when every candidate within the
fuel exists. -/
theorem createFileFrom_all_taken (ex : String → Bool) (fuel : Nat) :
    ∀ i, (∀ k, i ≤ k → k < i + fuel → ex (mlogName k) = true) →
    createFileFrom ex i fuel = none := by
  induction fuel with
  | zero =>
    intro i _
    rfl
  | succ n ih =>
    intro i hall
    have hi : ex (mlogName i) = true := hall i le_rfl (by omega)
    simp only [createFileFrom, hi, if_true]
    exact ih (i + 1) (fun k h1 h2 => hall k (by omega) (by omega))

/-- C5: when some candidate among indices 0–99 is absent, `createFile`
opens exactly the name with the least absent index: it probes the
two-digit sequence numbers 00 through 99 in ascending order and opens
the numerically first name that does not already exist. -/
theorem createFile_first_free (ex : String → Bool) (j : Nat) (hj : j < 100)
    (hfree : ex (mlogName j) = false)
    (hmin : ∀ k, k < j → ex (mlogName k) = true) :
    createFile ex = some (mlogName j) :=
  createFileFrom_first ex 100 0 j (Nat.zero_le j) (by omega) hfree
    (fun k _ hk => hmin k hk)

/-- The existence predicate of a storage holding exactly the log names
with sequence numbers 00 through 05. -/
def exSix : String → Bool := fun s =>
  (["MLOG00.CSV", "MLOG01.CSV", "MLOG02.CSV",
    "MLOG03.CSV", "MLOG04.CSV", "MLOG05.CSV"] : List String).contains s

/-- Witness: with exactly names 00–05 existing, the chosen name is the
one with sequence number 06, namely MLOG06.CSV. -/
theorem createFile_first_free_witness :
    createFile exSix = some (mlogName 6) ∧ mlogName 6 = "MLOG06.CSV" :=
  ⟨createFile_first_free exSix 6 (by decide) (by decide) (by decide), by decide⟩

/-- C6: a logging tick in which the temperature read and/or the
humidity read fails (NaN, the reads fail independently) still produces
exactly one record, whose temperature and humidity fields hold the
rendered reads — the sentinel text "nan" verbatim for each failed read
— with the pressure field still present as the final field, and the
tick is not aborted. -/
theorem tick_with_nan_sensors (s : MonState) (e : LoopEnv)
    (htick : ten_mins ≤ usub32 e.tNow s.startMillis)
    (hfail : e.temp = FloatSample.nan ∨ e.hum = FloatSample.nan) :
    (loopStep s e).tick = true
  ∧ (loopStep s e).appended =
      [toString e.tLog ++ ", " ++ toString e.now.unixtime ++ ", " ++ calendarStr e.now ++
       ", " ++ FloatSample.render e.temp ++ ", " ++ FloatSample.render e.hum ++ ", " ++
       toString e.fsr1]
  ∧ (e.temp = FloatSample.nan → FloatSample.render e.temp = "nan")
  ∧ (e.hum = FloatSample.nan → FloatSample.render e.hum = "nan") := by
  by_cases hB : usub32 e.tFlushChk s.syncTime < SYNC_INTERVAL
  · refine ⟨by simp [loopStep, htick, hB],
      by simp [loopStep, htick, hB, recordLine], ?_, ?_⟩
    · intro h
      rw [h]
      rfl
    · intro h
      rw [h]
      rfl
  · refine ⟨by simp [loopStep, htick, hB],
      by simp [loopStep, htick, hB, recordLine], ?_, ?_⟩
    · intro h
      rw [h]
      rfl
    · intro h
      rw [h]
      rfl

/-- Witness for the NaN-tick theorem on a concrete tick where only the
temperature read fails: the record still has both DHT fields, "nan"
verbatim for the failed temperature, the valid humidity text, and the
pressure field. -/
theorem tick_with_nan_sensors_witness :
    (loopStep s0 envNanTemp).tick = true
  ∧ (loopStep s0 envNanTemp).appended =
      [toString envNanTemp.tLog ++ ", " ++ toString envNanTemp.now.unixtime ++ ", " ++
       calendarStr envNanTemp.now ++ ", " ++ FloatSample.render envNanTemp.temp ++ ", " ++
       FloatSample.render envNanTemp.hum ++ ", " ++ toString envNanTemp.fsr1]
  ∧ (envNanTemp.temp = FloatSample.nan → FloatSample.render envNanTemp.temp = "nan")
  ∧ (envNanTemp.hum = FloatSample.nan → FloatSample.render envNanTemp.hum = "nan") :=
  tick_with_nan_sensors s0 envNanTemp (by decide) (Or.inl rfl)

/-- A record line is its six fields joined by the delimiter `", "`. -/
theorem recordLine_sepJoin (m : Nat) (d : DateTimeT) (t h : FloatSample) (f : Nat) :
    recordLine m d t h f =
      sepJoin ", " [toString m, toString d.unixtime, calendarStr d,
                    FloatSample.render t, FloatSample.render h, toString f] := by
  simp [recordLine, sepJoin, String.append_assoc]

/-- C7: with a ready handle, every logging tick appends exactly one
record line to the log, and that line is the six fields milliseconds,
unix seconds, calendar date-time, temperature, humidity, pressure in
that fixed order, joined by the data delimiter. -/
theorem tick_appends_one_record (s : MonState) (e : LoopEnv)
    (hready : s.ready = true)
    (htick : ten_mins ≤ usub32 e.tNow s.startMillis) :
    (loopStep s e).appended = [recordLine e.tLog e.now e.temp e.hum e.fsr1]
  ∧ (loopStep s e).state.fileLines =
      s.fileLines ++ [recordLine e.tLog e.now e.temp e.hum e.fsr1]
  ∧ recordLine e.tLog e.now e.temp e.hum e.fsr1 =
      sepJoin ", " [toString e.tLog, toString e.now.unixtime, calendarStr e.now,
                    FloatSample.render e.temp, FloatSample.render e.hum,
                    toString e.fsr1] := by
  by_cases hB : usub32 e.tFlushChk s.syncTime < SYNC_INTERVAL
  · refine ⟨?_, ?_, recordLine_sepJoin _ _ _ _ _⟩
    · simp [loopStep, htick, hB]
    · simp [loopStep, htick, hB, appendLine_fileLines, hready]
  · refine ⟨?_, ?_, recordLine_sepJoin _ _ _ _ _⟩
    · simp [loopStep, htick, hB]
    · simp [loopStep, htick, hB, appendLine_fileLines, hready]

/-- Witness for the one-record-per-tick theorem at the concrete first
tick from the fresh state. -/
theorem tick_appends_one_record_witness :
    (loopStep s0 (envAt 600000 601000 601000)).appended =
      [recordLine 600000 dt0 (FloatSample.val "20.00") (FloatSample.val "50.00") 1000] :=
  (tick_appends_one_record s0 (envAt 600000 601000 601000) (by decide) (by decide)).1

/-- C8 is false as stated.  On a concrete startup with a working SD
card, fresh storage, and a failing RTC, the failure report "RTC failed"
is written INTO the data log file (before the header), and the Serial
diagnostic sink receives only the SD-card messages — the RTC failure is
not reported to the external diagnostic sink. -/
theorem rtc_failure_logged_counterexample :
    (initRTC false).2 = ["RTC failed"]
  ∧ (initRTC false).1 = []
  ∧ (setup true false (fun _ => false)).state.fileLines = ["RTC failed", headerLine]
  ∧ (setup true false (fun _ => false)).serial =
      ["Initializing SD card...", "card initialized."] := by
  decide

/-- C8 (amended): SD-card initialization failure is reported to the
Serial diagnostic sink and leaves the handle unready, after which log
writes degrade to silent no-ops and the loop still executes; RTC
initialization failure is reported by printing "RTC failed" into the
data log file itself (nothing goes to Serial); neither failure halts
startup or the loop, and initialization is attempted exactly once in
`setup` with no retry. -/
theorem init_failure_semantics (ex : String → Bool) (e : LoopEnv) :
    initSDcard false = ["Initializing SD card...", "Card failed, or not present"]
  ∧ (setup false true ex).serial = ["Initializing SD card...", "Card failed, or not present"]
  ∧ (setup false true ex).state.ready = false
  ∧ (setup false true ex).state.fileLines = []
  ∧ (loopStep (setup false true ex).state e).state.fileLines = []
  ∧ (initRTC false).1 = []
  ∧ (initRTC false).2 = ["RTC failed"] := by
  refine ⟨rfl, rfl, rfl, rfl, ?_, rfl, rfl⟩
  exact loopStep_fileLines_not_ready (setup false true ex).state e rfl

/-- Witness for the initialization-failure theorem at a concrete
environment: with a failed SD card the loop pass persists nothing. -/
theorem init_failure_semantics_witness :
    (loopStep (setup false true (fun _ => false)).state (envAt 600000 601000 601000)).state.fileLines = [] :=
  (init_failure_semantics (fun _ => false) (envAt 600000 601000 601000)).2.2.2.2.1

set_option maxRecDepth 4096 in
/-- C9 is false as stated.  With every candidate name taken,
`createFile` leaves the handle unready, but it emits NO diagnostic at
all — the exhaustion condition is not reported. -/
theorem exhaustion_unreported_counterexample :
    (createFileDiag (fun _ => true)).1 = Option.none
  ∧ (createFileDiag (fun _ => true)).2 = [] := by
  refine ⟨?_, rfl⟩
  show createFile (fun _ => true) = Option.none
  exact createFileFrom_all_taken (fun _ => true) 100 0 (fun k _ _ => rfl)

/-- C9 (amended): when all 100 candidate names exist at startup, file
creation leaves the log handle unready and emits no diagnostic (the
condition is NOT reported), no further persistence occurs — the header
is not written and loop-pass appends are silent no-ops — and the
process does not abort: the loop still executes. -/
theorem exhaustion_unready_silent (ex : String → Bool)
    (hall : ∀ k, k < 100 → ex (mlogName k) = true) (e : LoopEnv) :
    createFileDiag ex = (Option.none, [])
  ∧ (setup true true ex).state.ready = false
  ∧ (setup true true ex).state.fileLines = []
  ∧ (loopStep (setup true true ex).state e).state.fileLines = [] := by
  have hnone : createFile ex = Option.none :=
    createFileFrom_all_taken ex 100 0 (fun k hk1 hk2 => hall k (by omega))
  have hready : (setup true true ex).state.ready = false := by
    simp [setup, hnone]
  refine ⟨?_, hready, ?_, ?_⟩
  · simp [createFileDiag, hnone]
  · simp [setup, hnone]
  · rw [loopStep_fileLines_not_ready (setup true true ex).state e hready]
    simp [setup, hnone]

/-- Witness for the exhaustion theorem on a storage where every name
exists: the handle is unready and a loop pass persists nothing. -/
theorem exhaustion_unready_silent_witness :
    (setup true true (fun _ => true)).state.ready = false
  ∧ (loopStep (setup true true (fun _ => true)).state (envAt 600000 601000 601000)).state.fileLines = [] :=
  ⟨(exhaustion_unready_silent (fun _ => true) (fun _ _ => rfl) (envAt 600000 601000 601000)).2.1,
   (exhaustion_unready_silent (fun _ => true) (fun _ _ => rfl) (envAt 600000 601000 601000)).2.2.2⟩

/-- C10: a data record joins its six fields with the two-character
delimiter ", ", while the header line written at startup joins its six
column names with the bare one-character delimiter "," — the two
delimiters differ. -/
theorem delimiters_differ (m : Nat) (d : DateTimeT) (t h : FloatSample) (f : Nat) :
    recordLine m d t h f =
      sepJoin ", " [toString m, toString d.unixtime, calendarStr d,
                    FloatSample.render t, FloatSample.render h, toString f]
  ∧ headerLine =
      sepJoin "," ["millis", "stamp", "datetime", "temp_(C)", "humidity%", "fsr_reading"]
  ∧ (", " : String) ≠ "," := by
  refine ⟨recordLine_sepJoin m d t h f, by decide, by decide⟩
